import Mathlib

/-!
Shallow embedding of the debug-timer repository (src/timer.py).

The python module defines two classes:
* class Timer: a single stopwatch holding a bounded deque of elapsed-time
  samples, a start instant, a cumulative total and a completed-call counter.
* class _DebugTimer: a process-wide singleton registry mapping names to
  Timer objects, with tic/toc by name, a context stack for with-block usage,
  warmup gating, and periodic summary logging.

Modelling decisions, each traceable to the python source:
* Wall-clock instants (time.time values) and all durations are exact
  rationals; every operation that reads the clock takes the current instant
  as an explicit argument.
* The sync hook is an external zero-argument callback; what matters to the
  registry is which hook object is installed and when it is invoked, so the
  hook is modelled as an opaque tag (SyncFunc) and each operation returns
  the list of observable events it performs (hook invocations and emitted
  log lines) alongside its result.
* python dicts preserve insertion order, so the registry mapping is an
  association list with insert-at-end semantics; defaultdict creation in
  tic is explicit lookup-or-create.
* python exceptions are values of PyError; an operation that can raise
  returns Except PyError, and an operation that mutates state before the
  raise (log increments the counter first) returns the mutated state
  together with the Except result.
-/

set_option autoImplicit false

namespace DebugTimerModel

/-- A python exception, restricted to the kinds the module can raise:
ValueError from _DebugTimer.toc on an unknown name (carrying that name),
AssertionError from the asserts in set_window_size, ZeroDivisionError from
Timer.global_avg with zero calls, and AttributeError from calling a method
a class does not define (carrying the attribute name). -/
inductive PyError where
  | valueError (name : String)
  | assertionError
  | zeroDivisionError
  | attributeError (attr : String)
  | indexError
  deriving DecidableEq, Repr

/-- The installed sync hook: the default no-op lambda installed by
_DebugTimer.__init__, or a caller-supplied callback identified by a tag. -/
inductive SyncFunc where
  | noop
  | user (id : Nat)
  deriving DecidableEq, Repr

/-- An observable side effect of a registry operation: one invocation of the
installed sync hook, or one formatted line passed to the log sink. -/
inductive Event where
  | sync (f : SyncFunc)
  | output (line : String)
  deriving DecidableEq, Repr

/-- class Timer (src/timer.py lines 12-53): deque is the sample buffer,
most-recent-last, with capacity window_size (the deque maxlen); start_time,
total_time and calls are the remaining instance attributes, with their
python initial values 0., 0. and 0. -/
structure Timer where
  window_size : Nat
  deque : List ℚ
  start_time : ℚ
  total_time : ℚ
  calls : Nat
  deriving DecidableEq, Repr

/-- Timer.__init__(window_size): deque(maxlen=window_size) starts empty,
start_time = 0., total_time = 0., calls = 0. -/
def Timer.init (window_size : Nat) : Timer :=
  { window_size := window_size, deque := [], start_time := 0, total_time := 0, calls := 0 }

/-- Appending to a python deque with the given maxlen: the new element goes
to the right and the oldest elements are evicted from the left so that at
most maxlen remain. -/
def dequeAppend (maxlen : Nat) (xs : List ℚ) (x : ℚ) : List ℚ :=
  let ys := xs ++ [x]
  ys.drop (ys.length - maxlen)

/-- Timer.tic: records the current time as start_time. -/
def Timer.tic (t : Timer) (now : ℚ) : Timer :=
  { t with start_time := now }

/-- Timer.toc: diff = now - start_time; adds diff to total_time, increments
calls, appends diff to the deque, returns diff. -/
def Timer.toc (t : Timer) (now : ℚ) : Timer × ℚ :=
  let diff := now - t.start_time
  ({ t with
      total_time := t.total_time + diff,
      calls := t.calls + 1,
      deque := dequeAppend t.window_size t.deque diff }, diff)

/-- Timer.avg: np.mean(deque) if the deque is nonempty, else 0. -/
def Timer.avg (t : Timer) : ℚ :=
  if t.deque = [] then 0 else t.deque.sum / t.deque.length

/-- Timer.global_avg: total_time / calls, with no zero guard; python raises
ZeroDivisionError exactly when calls == 0, modelled as none. -/
def Timer.global_avg (t : Timer) : Option ℚ :=
  if t.calls = 0 then none else some (t.total_time / t.calls)

/-- Timer.value: the most recent sample, or 0 when the deque is empty. -/
def Timer.value (t : Timer) : ℚ :=
  (t.deque.getLast?).getD 0

/-- Timer.max: max(deque) if nonempty, else 0. -/
def Timer.maxStat (t : Timer) : ℚ :=
  (t.deque.foldl max (t.deque.headD 0))

/-- class _DebugTimer (src/timer.py lines 56-177): the registry state.
timers is the insertion-ordered name-to-Timer mapping; window_size is the
registry default (an int that may be zero or negative, distinct from each
Timer's deque capacity); cls_pfx models the class attribute prefix = "". -/
structure DebugTimer where
  num_warmup : Nat
  context_stacks : List String
  calls : Nat
  timers : List (String × Timer)
  window_size : Int
  sync : SyncFunc
  deriving DecidableEq, Repr

/-- The class attribute _DebugTimer.prefix, the empty string. -/
def clsPfx : String := ""

/-- Ordered-dict lookup: the Timer stored under the given name, if any. -/
def lookupTimer (ts : List (String × Timer)) (name : String) : Option Timer :=
  match ts with
  | [] => none
  | (n, t) :: rest => if n = name then some t else lookupTimer rest name

/-- Ordered-dict store: overwrite the value under an existing key in place,
or append a new key at the end (python dict insertion order). -/
def storeTimer (ts : List (String × Timer)) (name : String) (t : Timer) :
    List (String × Timer) :=
  match ts with
  | [] => [(name, t)]
  | (n, u) :: rest =>
      if n = name then (n, t) :: rest else (n, u) :: storeTimer rest name t

/-- The deque capacity a freshly created Timer receives: set_window_size
installs partial(Timer, window_size=self.window_size) as the defaultdict
factory when window_size > 0, and the bare Timer class (whose default
window_size is 20) otherwise. -/
def DebugTimer.newTimerCapacity (d : DebugTimer) : Nat :=
  if d.window_size > 0 then d.window_size.toNat else 20

/-- _DebugTimer.set_sync_func: installs the given hook (the python assert
isinstance(func, Callable) always passes for a SyncFunc). -/
def DebugTimer.set_sync_func (d : DebugTimer) (f : SyncFunc) : DebugTimer :=
  { d with sync := f }

/-- _DebugTimer.set_window_size: assert len(self.timers) == 0 (raising
AssertionError when any timer exists), then store the new default and
rebuild the (empty) defaultdict with the matching factory. -/
def DebugTimer.set_window_size (d : DebugTimer) (n : Int) : Except PyError DebugTimer :=
  if d.timers = [] then
    Except.ok { d with window_size := n, timers := [] }
  else
    Except.error PyError.assertionError

/-- _DebugTimer.reset_timer: for timer in self.timers.values():
timer.reset(). class Timer defines no method named reset, so on the first
iteration python raises AttributeError; with no timers the loop body never
runs and the call is a no-op. -/
def DebugTimer.reset_timer (d : DebugTimer) : Except PyError DebugTimer :=
  match d.timers with
  | [] => Except.ok d
  | _ :: _ => Except.error (PyError.attributeError "reset")

/-- _DebugTimer.tic(name): self.timers[name] on the defaultdict looks the
Timer up or creates one with the current factory and inserts it at the end;
then the sync hook runs, then timer.tic(), and the timer is returned. -/
def DebugTimer.tic (d : DebugTimer) (name : String) (now : ℚ) :
    DebugTimer × Timer × List Event :=
  let t0 := (lookupTimer d.timers name).getD (Timer.init d.newTimerCapacity)
  let t1 := t0.tic now
  ({ d with timers := storeTimer d.timers name t1 }, t1, [Event.sync d.sync])

/-- _DebugTimer.toc(name): dict.get; raises ValueError when the name is
absent; when self.calls >= self.num_warmup runs the sync hook and
timer.toc() and returns the elapsed value; otherwise (warmup) does nothing
and returns None. -/
def DebugTimer.toc (d : DebugTimer) (name : String) (now : ℚ) :
    Except PyError (DebugTimer × Option ℚ × List Event) :=
  match lookupTimer d.timers name with
  | none => Except.error (PyError.valueError name)
  | some t =>
      if d.calls ≥ d.num_warmup then
        let r := t.toc now
        Except.ok ({ d with timers := storeTimer d.timers name r.1 },
          some r.2, [Event.sync d.sync])
      else
        Except.ok (d, none, [])

/-- Rounding of a rational to the nearest integer with ties to even, the
rounding python float formatting applies; the float values themselves are
modelled as the exact rationals they stand for. -/
def roundHalfEven (q : ℚ) : ℤ :=
  let f := Int.floor q
  let r := q - f
  if r < 1/2 then f
  else if 1/2 < r then f + 1
  else if 2 ∣ f then f else f + 1

/-- Three-digit zero-padded decimal rendering of a number below 1000. -/
def pad3 (k : Nat) : String :=
  (if k < 10 then "00" else if k < 100 then "0" else "") ++ toString k

/-- The python format "{:.3f}" applied to the number q: rounded to three
decimal places and rendered with exactly three fractional digits. -/
def fmtFixed3 (q : ℚ) : String :=
  let n : ℤ := roundHalfEven (q * 1000)
  let sign := if n < 0 then "-" else ""
  let m := n.natAbs
  sign ++ toString (m / 1000) ++ "." ++ pad3 (m % 1000)

/-- One iteration of the loop body of _DebugTimer.log for the timer named
name: avg_time = timer.avg if self.window_size > 0 else timer.global_avg
(the latter raising ZeroDivisionError when the timer has zero calls); the
value is scaled to milliseconds when below 0.01 seconds, and the field
" name: value unit " is produced. -/
def logEntryStr (ws : Int) (name : String) (t : Timer) : Except PyError String :=
  let avgE : Except PyError ℚ :=
    if ws > 0 then Except.ok t.avg
    else
      match t.global_avg with
      | none => Except.error PyError.zeroDivisionError
      | some a => Except.ok a
  match avgE with
  | Except.error e => Except.error e
  | Except.ok avg0 =>
      let p := if avg0 < 1/100 then (avg0 * 1000, "ms") else (avg0, "s")
      Except.ok (" " ++ name ++ ": " ++ fmtFixed3 p.1 ++ p.2 ++ " ")

/-- The loop of _DebugTimer.log over all registered timers in insertion
order, stopping at the first raised exception as the python loop does. -/
def logEntries (ws : Int) : List (String × Timer) → Except PyError (List String)
  | [] => Except.ok []
  | (n, t) :: rest =>
      match logEntryStr ws n t with
      | Except.error e => Except.error e
      | Except.ok s =>
          match logEntries ws rest with
          | Except.error e => Except.error e
          | Except.ok ss => Except.ok (s :: ss)

/-- _DebugTimer.log(logperiod, prefix, log_func): increments self.calls
unconditionally; when the incremented counter is a multiple of logperiod
and at least one timer is registered, builds lines = [prefix or
self.prefix] ++ one field per timer ++ [""] and passes "|".join(lines) to
the sink, which is the single output event; otherwise nothing further
happens. The incremented state is returned even when a ZeroDivisionError
propagates out of the loop (the increment already happened); logperiod is
taken positive, as in python a zero period would itself raise. -/
def DebugTimer.log (d : DebugTimer) (logperiod : Nat) (pfx : String) :
    DebugTimer × Except PyError (List Event) :=
  let d2 := { d with calls := d.calls + 1 }
  if d2.calls % logperiod = 0 ∧ d2.timers ≠ [] then
    match logEntries d2.window_size d2.timers with
    | Except.error e => (d2, Except.error e)
    | Except.ok entries =>
        let head := if pfx = "" then clsPfx else pfx
        let line := String.intercalate "|" (head :: (entries ++ [""]))
        (d2, Except.ok [Event.output line])
  else
    (d2, Except.ok [])

/-- Entering a with-block: _DebugTimer.__call__ with a string pushes the
name onto context_stacks and returns self; __enter__ then reads
context_stacks[-1] (necessarily the name just pushed, so the getLastD
default is never used) and calls tic on it. -/
def DebugTimer.scopeEnter (d : DebugTimer) (name : String) (now : ℚ) :
    DebugTimer × List Event :=
  let d1 := { d with context_stacks := d.context_stacks ++ [name] }
  let top := d1.context_stacks.getLastD name
  let r := d1.tic top now
  (r.1, r.2.2)

/-- Leaving a with-block: _DebugTimer.__exit__ pops the last name from
context_stacks (an empty stack would be a python IndexError), calls
toc(name), and re-raises the in-flight body exception, if any, unchanged.
excId is the body exception; the middle component of the result is the
exception propagating out of the block: a registry error (Sum.inl) or the
body exception (Sum.inr). -/
def DebugTimer.scopeExit (d : DebugTimer) (now : ℚ) (excId : Option Nat) :
    DebugTimer × Option (Sum PyError Nat) × List Event :=
  match d.context_stacks.getLast? with
  | none => (d, some (Sum.inl PyError.indexError), [])
  | some name =>
      let d1 := { d with context_stacks := d.context_stacks.dropLast }
      match d1.toc name now with
      | Except.error e => (d1, some (Sum.inl e), [])
      | Except.ok r => (r.1, excId.map Sum.inr, r.2.2)

/-- A whole with-block: with debug_timer(name): body. The body runs between
the two clock readings and either completes or raises the exception
bodyExc; the result is the final registry state, the exception observed by
the caller of the block (none when the body completed and the block
swallowed nothing), and the events in order. -/
def DebugTimer.withScope (d : DebugTimer) (name : String) (ticNow tocNow : ℚ)
    (bodyExc : Option Nat) : DebugTimer × Option (Sum PyError Nat) × List Event :=
  let r1 := d.scopeEnter name ticNow
  let r2 := r1.1.scopeExit tocNow bodyExc
  (r2.1, r2.2.1, r1.2 ++ r2.2.2)

/-- _DebugTimer.__init__ running on an already-existing registry object
(the singleton returned again by __new__): sets num_warmup, empties the
context stack, zeroes the global counter, rebuilds the (empty) timers
dict, installs the no-op sync hook, and calls
set_window_size(self.window_size) with the object's current window_size
attribute, which succeeds since the dict was just emptied. -/
def DebugTimer.reinit (d : DebugTimer) (num_warmup : Nat) : DebugTimer :=
  let d1 : DebugTimer :=
    { num_warmup := num_warmup, context_stacks := [], calls := 0,
      timers := [], window_size := d.window_size, sync := d.sync }
  let d2 := d1.set_sync_func SyncFunc.noop
  match d2.set_window_size d.window_size with
  | Except.ok d3 => d3
  | Except.error _ => d2

/-- _DebugTimer.__init__ running on a brand-new object, whose window_size
attribute resolves to the class attribute 50. -/
def DebugTimer.initialWith (num_warmup : Nat) : DebugTimer :=
  { num_warmup := num_warmup, context_stacks := [], calls := 0, timers := [],
    window_size := 50, sync := SyncFunc.noop }

/-- _DebugTimer(num_warmup): __new__ returns the stored singleton when one
exists (and __init__ then re-runs on that same object), or allocates the
one instance. The module-level singleton slot is the argument. -/
def constructDebugTimer (singleton : Option DebugTimer) (num_warmup : Nat) :
    DebugTimer :=
  match singleton with
  | none => DebugTimer.initialWith num_warmup
  | some d => d.reinit num_warmup

/-- The module-level debug_timer = _DebugTimer(), created with an empty
singleton slot and the default num_warmup = 0. -/
def debug_timer : DebugTimer := constructDebugTimer none 0

/-- The spec's description of one field of the summary line, stated from
the spec's words rather than from the code for comparison with
logEntryStr: the timer's representative average is the moving average when
the registry is windowed and the cumulative average otherwise, auto-scaled
to milliseconds when below 0.01 seconds, rendered with three-decimal
precision as a " name: value unit " field. -/
def specEntry (ws : Int) (p : String × Timer) : String :=
  let a := if ws > 0 then p.2.avg else p.2.total_time / p.2.calls
  if a < 1/100 then " " ++ p.1 ++ ": " ++ fmtFixed3 (a * 1000) ++ "ms "
  else " " ++ p.1 ++ ": " ++ fmtFixed3 a ++ "s "

/-- Running n consecutive log(10, "") calls, for exhibiting reachable
registry states whose global counter has advanced. -/
def logsN (d : DebugTimer) : Nat → DebugTimer
  | 0 => d
  | k + 1 => ((logsN d k).log 10 "").1

/-- A registry in its warmup phase (num_warmup = 1, zero global calls so
far) holding one stopwatch named "a" started at instant 2. -/
def warmupReg : DebugTimer := { num_warmup := 1, context_stacks := [], calls := 0, timers := [("a", (Timer.init 50).tic 2)], window_size := 50, sync := SyncFunc.noop }

/-- The same registry as warmupReg but past warmup (num_warmup = 0). -/
def postWarmReg : DebugTimer := { num_warmup := 0, context_stacks := [], calls := 0, timers := [("a", (Timer.init 50).tic 2)], window_size := 50, sync := SyncFunc.noop }

/-- The registry obtained from the fresh module singleton by
set_window_size(0): no timers, default window size zero. -/
def unwindowedReg : DebugTimer := { num_warmup := 0, context_stacks := [], calls := 0, timers := [], window_size := 0, sync := SyncFunc.noop }

/-- The fresh singleton after set_window_size(0) (taking the ok branch of
the call, which applies since no timer exists yet). -/
def c4Start : DebugTimer := match (DebugTimer.initialWith 0).set_window_size 0 with | Except.ok d => d | Except.error _ => DebugTimer.initialWith 0

/-- c4Start after tic("stage") with no matching toc and nine silent log
calls: a reachable state with window size 0, a registered timer with zero
completed calls, and a global counter one short of the log period. -/
def c4Ready : DebugTimer := logsN ((c4Start.tic "stage" 0).1) 9

/-- A freshly re-initialized registry (num_warmup = 3) with no timers. -/
def freshReg : DebugTimer := DebugTimer.initialWith 3

/-- A registry already holding one stopwatch named "busy". -/
def c7Occupied : DebugTimer := { num_warmup := 0, context_stacks := [], calls := 0, timers := [("busy", Timer.init 50)], window_size := 50, sync := SyncFunc.noop }

/-- A window-size-0 registry whose timer "io" was started but never
stopped, with the global counter one short of period 5. -/
def c8Bad : DebugTimer := { num_warmup := 0, context_stacks := [], calls := 4, timers := [("io", (Timer.init 20).tic 0)], window_size := 0, sync := SyncFunc.noop }

/-- A stopwatch with one 5-millisecond sample. -/
def wt1 : Timer := { window_size := 50, deque := [1/200], start_time := 0, total_time := 1/200, calls := 1 }

/-- A stopwatch with one half-second sample. -/
def wt2 : Timer := { window_size := 50, deque := [1/2], start_time := 0, total_time := 1/2, calls := 1 }

/-- A windowed registry holding wt1 and wt2 with the global counter one
short of the default period 10. -/
def c8Good : DebugTimer := { num_warmup := 0, context_stacks := [], calls := 9, timers := [("t1", wt1), ("t2", wt2)], window_size := 50, sync := SyncFunc.noop }

/-- A freshly re-initialized registry still in warmup (num_warmup = 1). -/
def c9Warm : DebugTimer := DebugTimer.initialWith 1

/-- A freshly re-initialized registry past warmup (num_warmup = 0). -/
def scReg : DebugTimer := DebugTimer.initialWith 0

section Lemmas

/-- Storing under a name makes lookup under that name return the stored
timer. -/
theorem lookupTimer_storeTimer_self (ts : List (String × Timer)) (n : String)
    (t : Timer) : lookupTimer (storeTimer ts n t) n = some t := by
  induction ts with
  | nil => simp [storeTimer, lookupTimer]
  | cons p rest ih =>
      obtain ⟨m, u⟩ := p
      by_cases hm : m = n
      · simp [storeTimer, lookupTimer, hm]
      · simp [storeTimer, lookupTimer, hm, ih]

/-- The last element of a list with one element pushed at the end. -/
theorem getLastD_push (l : List String) (a b : String) :
    (l ++ [a]).getLastD b = a := by
  induction l with
  | nil => rfl
  | cons x xs ih => simp [List.getLastD] at ih ⊢

/-- Dropping the last element of a list with one element pushed at the
end. -/
theorem dropLast_push (l : List String) (a : String) :
    (l ++ [a]).dropLast = l := by
  simp

/-- The last element, as an option, of a list with one element pushed at
the end. -/
theorem getLast?_push (l : List String) (a : String) :
    (l ++ [a]).getLast? = some a := by
  simp

/-- When the registry is windowed, or the timer has at least one completed
call, the loop body of log raises nothing and produces exactly the field
the spec describes. -/
theorem logEntryStr_ok (ws : Int) (n : String) (t : Timer)
    (h : 0 < ws ∨ t.calls ≠ 0) :
    logEntryStr ws n t = Except.ok (specEntry ws (n, t)) := by
  by_cases hw : 0 < ws
  · simp only [logEntryStr, specEntry, hw, if_true]
    split <;> simp_all <;> rw [String.append_assoc] <;> rfl
  · have hc : t.calls ≠ 0 := h.resolve_left hw
    simp only [logEntryStr, specEntry, hw, if_false, Timer.global_avg, hc]
    split <;> simp_all <;> rw [String.append_assoc] <;> rfl

/-- When the registry is windowed, or every registered timer has at least
one completed call, the log loop raises nothing and produces exactly the
spec's field for every timer in order. -/
theorem logEntries_ok (ws : Int) (ts : List (String × Timer))
    (h : 0 < ws ∨ ∀ nt ∈ ts, nt.2.calls ≠ 0) :
    logEntries ws ts = Except.ok (ts.map (specEntry ws)) := by
  induction ts with
  | nil => rfl
  | cons p rest ih =>
      have h1 : 0 < ws ∨ p.2.calls ≠ 0 := by
        rcases h with h | h
        · exact Or.inl h
        · exact Or.inr (h p (by simp))
      have h2 : 0 < ws ∨ ∀ nt ∈ rest, nt.2.calls ≠ 0 := by
        rcases h with h | h
        · exact Or.inl h
        · exact Or.inr (fun nt hnt => h nt (by simp [hnt]))
      obtain ⟨n, t⟩ := p
      simp [logEntries, logEntryStr_ok ws n t h1, ih h2]

/-- Whatever branch log takes — silent, emitting, or raising out of the
loop — the returned state is the input state with the global counter
incremented and nothing else changed. -/
theorem log_fst (d : DebugTimer) (p : Nat) (pfx : String) :
    (d.log p pfx).1 = { d with calls := d.calls + 1 } := by
  unfold DebugTimer.log
  cases hE : logEntries d.window_size d.timers <;>
    simp [hE, apply_ite (Prod.fst (α := DebugTimer) (β := Except PyError (List Event)))]

/-- When the registry is unwindowed and some registered timer has zero
completed calls, the log loop raises ZeroDivisionError: the entries before
the first such timer are produced fine and the first zero-call timer's
cumulative average raises. -/
theorem logEntries_error (ws : Int) (ts : List (String × Timer))
    (hws : ws ≤ 0) (h : ∃ nt ∈ ts, nt.2.calls = 0) :
    logEntries ws ts = Except.error PyError.zeroDivisionError := by
  induction ts with
  | nil => simp at h
  | cons q rest ih =>
      obtain ⟨n, t⟩ := q
      by_cases ht : t.calls = 0
      · simp [logEntries, logEntryStr, Int.not_lt.mpr hws, Timer.global_avg, ht]
      · have hrest : ∃ nt ∈ rest, nt.2.calls = 0 := by
          rcases h with ⟨nt, hmem, hc⟩
          rcases List.mem_cons.mp hmem with rfl | hmem2
          · exact absurd hc ht
          · exact ⟨nt, hmem2, hc⟩
        simp [logEntries, logEntryStr_ok ws n t (Or.inr ht), ih hrest]

end Lemmas

/-- C5: for every Stopwatch, cumulativeAverage (Timer.global_avg) is
undefined by a DivisionByZero-class condition exactly when callCount is
zero, and otherwise equals totalElapsed / callCount, with no zero guard
returning 0. -/
theorem global_avg_division_spec (t : Timer) :
    (t.global_avg = none ↔ t.calls = 0) ∧
    (t.calls ≠ 0 → t.global_avg = some (t.total_time / t.calls)) := by
  refine ⟨?_, ?_⟩
  · unfold Timer.global_avg
    split <;> simp_all
  · intro h
    unfold Timer.global_avg
    simp [h]

/-- Witness for C5 at a concrete stopwatch: two completed calls totalling
three seconds give cumulative average 3/2, and a fresh stopwatch has an
undefined cumulative average. -/
theorem global_avg_division_spec_witness :
    ({ window_size := 50, deque := [2], start_time := 0, total_time := 3, calls := 2 } : Timer).global_avg = some (3 / 2) ∧
    (Timer.init 20).global_avg = none := by
  constructor
  · have h := (global_avg_division_spec { window_size := 50, deque := [2], start_time := 0, total_time := 3, calls := 2 }).2 (by decide)
    rw [h]
    norm_num
  · exact (global_avg_division_spec (Timer.init 20)).1.mpr rfl

/-- C6: toc(name) raises the ValueError naming the timer exactly when no
timer of that name is registered, while tic(name) is total: it invokes the
sync hook once, records the start instant on the returned stopwatch, and
leaves that stopwatch registered under the name (creating it when it was
absent). -/
theorem toc_notfound_tic_creates (d : DebugTimer) (name : String) (now : ℚ) :
    (d.toc name now = Except.error (PyError.valueError name) ↔
      lookupTimer d.timers name = none) ∧
    (d.tic name now).2.2 = [Event.sync d.sync] ∧
    (d.tic name now).2.1.start_time = now ∧
    lookupTimer (d.tic name now).1.timers name = some (d.tic name now).2.1 := by
  refine ⟨?_, rfl, rfl, ?_⟩
  · unfold DebugTimer.toc
    cases hl : lookupTimer d.timers name with
    | none => simp
    | some t =>
        simp only [ge_iff_le]
        split <;> simp
  · unfold DebugTimer.tic
    simp [lookupTimer_storeTimer_self]

/-- C2, failing input: a registry holding one registered timer. The class
Timer defines no reset method, so reset_timer raises AttributeError on its
first loop iteration instead of clearing each stopwatch. -/
theorem reset_timer_attribute_error (d : DebugTimer) (h : d.timers ≠ []) :
    d.reset_timer = Except.error (PyError.attributeError "reset") := by
  unfold DebugTimer.reset_timer
  cases hd : d.timers with
  | nil => exact absurd hd h
  | cons p rest => rfl

/-- Witness for C2 at a concrete registry holding the single timer "t1". -/
theorem reset_timer_attribute_error_witness :
    ({ num_warmup := 0, context_stacks := [], calls := 3, timers := [("t1", Timer.init 50)], window_size := 50, sync := SyncFunc.noop } : DebugTimer).reset_timer = Except.error (PyError.attributeError "reset") :=
  reset_timer_attribute_error _ (by decide)

/-- C10: constructing the registry again with the singleton slot occupied
re-runs initialization on that same stored object: every previously
registered timer is discarded, the global counter returns to zero, the
context stack is emptied, the sync hook reverts to the no-op default, and
the object keeps its own window_size attribute (the state is the re-used
singleton's, not a fresh default). -/
theorem construct_again_reinitializes (d : DebugTimer) (nw : Nat) :
    constructDebugTimer (some d) nw =
      { num_warmup := nw, context_stacks := [], calls := 0, timers := [],
        window_size := d.window_size, sync := SyncFunc.noop } := by
  simp [constructDebugTimer, DebugTimer.reinit, DebugTimer.set_sync_func,
    DebugTimer.set_window_size]

/-- Witness for C6 at concrete inputs: on the freshly initialized registry,
toc of the never-started name "missing" raises the ValueError naming it,
and after tic of "x" at instant 3 the returned stopwatch is registered
under "x". -/
theorem toc_notfound_tic_creates_witness :
    (DebugTimer.initialWith 0).toc "missing" 0 = Except.error (PyError.valueError "missing") ∧
    lookupTimer ((DebugTimer.initialWith 0).tic "x" 3).1.timers "x" = some ((DebugTimer.initialWith 0).tic "x" 3).2.1 := by
  have h := toc_notfound_tic_creates (DebugTimer.initialWith 0) "missing" 0
  have h2 := toc_notfound_tic_creates (DebugTimer.initialWith 0) "x" 3
  exact ⟨h.1.mpr rfl, h2.2.2.2⟩

/-- C1, counterexample: on warmupReg (global callCount 0 < numWarmup 1,
timer "a" registered), toc("a") returns with NO events at all — in
particular the sync hook is not invoked, no elapsed time is computed, and
the registry state is untouched — contradicting the claim that the sync
hook and elapsed-time computation still run during warmup. -/
theorem toc_warmup_counterexample :
    warmupReg.toc "a" 5 = Except.ok (warmupReg, none, []) ∧
    ¬ ∃ r, warmupReg.toc "a" 5 = Except.ok r ∧ Event.sync warmupReg.sync ∈ r.2.2 := by
  have he : warmupReg.toc "a" 5 = Except.ok (warmupReg, none, []) := rfl
  refine ⟨he, ?_⟩
  rintro ⟨r, hr, hm⟩
  rw [he] at hr
  cases hr
  simp at hm

/-- C1, amended: a toc(name) call on an existing timer while the global
callCount is below numWarmup invokes nothing — no sync hook, no elapsed
computation — returns no duration and leaves the registry (sample buffer,
totalElapsed, callCount of the stopwatch included) unchanged; once
callCount reaches numWarmup, toc invokes the sync hook once, records the
sample (appends the elapsed value to the buffer, adds it to totalElapsed,
increments the stopwatch callCount) and returns the elapsed duration. -/
theorem toc_warmup_spec (d : DebugTimer) (name : String) (now : ℚ) (t : Timer)
    (hl : lookupTimer d.timers name = some t) :
    (d.calls < d.num_warmup → d.toc name now = Except.ok (d, none, [])) ∧
    (d.num_warmup ≤ d.calls →
      d.toc name now = Except.ok
        ({ d with timers := storeTimer d.timers name (Timer.mk t.window_size (dequeAppend t.window_size t.deque (now - t.start_time)) t.start_time (t.total_time + (now - t.start_time)) (t.calls + 1)) },
          some (now - t.start_time), [Event.sync d.sync])) := by
  constructor
  · intro h
    unfold DebugTimer.toc
    rw [hl]
    simp only [ge_iff_le]
    rw [if_neg (by omega)]
  · intro h
    unfold DebugTimer.toc
    rw [hl]
    simp only [ge_iff_le]
    rw [if_pos h]
    rfl

/-- Witness for the amended C1 at concrete registries: during warmup
(warmupReg) toc is a no-op returning nothing; past warmup (postWarmReg) the
stopwatch started at 2 and stopped at 5 records the 3-second sample. -/
theorem toc_warmup_spec_witness :
    (warmupReg.calls < warmupReg.num_warmup ∧
      warmupReg.toc "a" 5 = Except.ok (warmupReg, none, [])) ∧
    (postWarmReg.num_warmup ≤ postWarmReg.calls ∧
      postWarmReg.toc "a" 5 = Except.ok
        ({ postWarmReg with timers := [("a", Timer.mk 50 [3] 2 3 1)] }, some 3, [Event.sync SyncFunc.noop])) := by
  refine ⟨⟨by decide, (toc_warmup_spec warmupReg "a" 5 ((Timer.init 50).tic 2) rfl).1 (by decide)⟩, by decide, ?_⟩
  have h := (toc_warmup_spec postWarmReg "a" 5 ((Timer.init 50).tic 2) rfl).2 (by decide)
  rw [h]
  norm_num [storeTimer, Timer.init, Timer.tic, dequeAppend, postWarmReg]

/-- C3, counterexample: setting window size 0 on the fresh module singleton
and completing one tic/toc pair on "a" leaves a stopwatch whose sample
buffer holds the sample (deque = [1], capacity 20) — the samples sequence
does not stay empty as the claim states. -/
theorem window0_samples_counterexample :
    debug_timer.set_window_size 0 = Except.ok unwindowedReg ∧
    (unwindowedReg.tic "a" 0).1.toc "a" 1 = Except.ok
      ({ unwindowedReg with timers := [("a", Timer.mk 20 [1] 0 1 1)] }, some 1, [Event.sync SyncFunc.noop]) := by
  constructor
  · rfl
  · norm_num [DebugTimer.tic, DebugTimer.toc, DebugTimer.newTimerCapacity, unwindowedReg, lookupTimer, storeTimer, Timer.init, Timer.tic, Timer.toc, dequeAppend]

/-- C3, amended: a registry whose windowSize is 0 (or negative) creates
every new Stopwatch with the Timer default deque capacity 20, so after a
completed tic/toc pair the sample buffer is the one-element list holding
the elapsed value, not empty; only the periodic-log statistics fall back to
cumulative totals for such a registry. -/
theorem window0_capacity20_spec (d : DebugTimer) (name : String) (now now2 : ℚ)
    (hw : d.window_size ≤ 0) (hn : lookupTimer d.timers name = none) :
    d.newTimerCapacity = 20 ∧
    (d.tic name now).2.1.window_size = 20 ∧
    ((d.tic name now).2.1.toc now2).1.deque = [now2 - now] := by
  have hcap : d.newTimerCapacity = 20 := by
    simp [DebugTimer.newTimerCapacity, Int.not_lt.mpr hw]
  refine ⟨hcap, ?_, ?_⟩
  · simp [DebugTimer.tic, hn, Timer.tic, Timer.init, hcap]
  · simp [DebugTimer.tic, hn, Timer.tic, Timer.init, hcap, Timer.toc, dequeAppend]

/-- Witness for the amended C3 on the window-size-0 registry: the fresh
stopwatch has capacity 20 and after the pair at instants 0 and 1 its
buffer is [1]. -/
theorem window0_capacity20_spec_witness :
    unwindowedReg.newTimerCapacity = 20 ∧
    (unwindowedReg.tic "a" 0).2.1.window_size = 20 ∧
    ((unwindowedReg.tic "a" 0).2.1.toc 1).1.deque = [1] := by
  have h := window0_capacity20_spec unwindowedReg "a" 0 1 (by decide) rfl
  refine ⟨h.1, h.2.1, ?_⟩
  rw [h.2.2]
  norm_num

/-- C4, counterexample: c4Ready is reached from the fresh singleton by
set_window_size(0), tic("stage") with no toc, and nine silent log calls;
the tenth log call meets the period with a registered timer whose
callCount is 0, and the cumulative-average path raises ZeroDivisionError —
the gating on timers existing and on the period does not prevent it. -/
theorem log_zero_division_counterexample :
    (c4Ready.log 10 "").2 = Except.error PyError.zeroDivisionError ∧
    c4Ready.calls = 9 ∧
    c4Ready.window_size = 0 ∧
    (lookupTimer c4Ready.timers "stage").map Timer.calls = some 0 := ⟨rfl, rfl, rfl, rfl⟩

/-- C4, amended: log never raises provided the registry is windowed
(windowSize > 0) or every registered timer has at least one completed
call; the division-by-zero path is reachable exactly outside that guard,
which the registry's own gating does not enforce. -/
theorem log_guarded_no_error (d : DebugTimer) (p : Nat) (pfx : String)
    (h : 0 < d.window_size ∨ ∀ nt ∈ d.timers, nt.2.calls ≠ 0) :
    ∃ evs, (d.log p pfx).2 = Except.ok evs := by
  unfold DebugTimer.log
  simp only [logEntries_ok d.window_size d.timers h]
  by_cases hc : (d.calls + 1) % p = 0 ∧ d.timers ≠ []
  · rw [if_pos hc]
    exact ⟨_, rfl⟩
  · rw [if_neg hc]
    exact ⟨[], rfl⟩

/-- Witness for the amended C4 on the fresh windowed singleton: log
returns without an exception. -/
theorem log_guarded_no_error_witness :
    ∃ evs, ((DebugTimer.initialWith 0).log 10 "").2 = Except.ok evs :=
  log_guarded_no_error (DebugTimer.initialWith 0) 10 "" (Or.inl (by decide))

/-- C7, counterexample: on the empty registry freshReg, set_window_size(0)
succeeds, but the next created Stopwatch receives deque capacity 20, not
the new default 0 — the new default window size is not applied to
subsequently created Stopwatches when it is not positive. -/
theorem set_window_size_zero_counterexample :
    freshReg.set_window_size 0 = Except.ok { freshReg with window_size := 0 } ∧
    (({ freshReg with window_size := 0 } : DebugTimer).tic "b" 0).2.1.window_size = 20 ∧
    (({ freshReg with window_size := 0 } : DebugTimer).tic "b" 0).2.1.window_size ≠ 0 :=
  ⟨rfl, rfl, by decide⟩

/-- C7, amended: setWindowSize(n) raises the AssertionError exactly when a
timer already exists; on an empty registry it succeeds changing only the
window_size attribute, and subsequently created Stopwatches receive deque
capacity n when n > 0 but the Timer default capacity 20 when n <= 0. -/
theorem set_window_size_spec (d : DebugTimer) (n : Int) :
    (d.timers ≠ [] → d.set_window_size n = Except.error PyError.assertionError) ∧
    (d.timers = [] →
      d.set_window_size n = Except.ok { d with window_size := n } ∧
      ({ d with window_size := n } : DebugTimer).newTimerCapacity =
        (if 0 < n then n.toNat else 20)) := by
  constructor
  · intro h
    simp [DebugTimer.set_window_size, h]
  · intro h
    refine ⟨?_, rfl⟩
    simp [DebugTimer.set_window_size, h]

/-- Witness for the amended C7: on the occupied registry the call raises
the AssertionError, on the empty registry it succeeds with capacity 7
applied to new Stopwatches. -/
theorem set_window_size_spec_witness :
    (c7Occupied.timers ≠ [] ∧ c7Occupied.set_window_size 7 = Except.error PyError.assertionError) ∧
    (freshReg.set_window_size 7 = Except.ok { freshReg with window_size := 7 } ∧
      ({ freshReg with window_size := 7 } : DebugTimer).newTimerCapacity = if 0 < (7 : Int) then (7 : Int).toNat else 20) :=
  ⟨⟨by decide, (set_window_size_spec c7Occupied 7).1 (by decide)⟩, (set_window_size_spec freshReg 7).2 rfl⟩

/-- C8, counterexample: on c8Bad the incremented global counter 5 is a
multiple of the period 5 and a timer exists, yet log emits no line: it
raises ZeroDivisionError instead (window size 0 and a timer with zero
completed calls), contradicting the claim that one formatted line is
emitted whenever the period is met and a timer exists. -/
theorem log_emission_counterexample :
    (c8Bad.log 5 "").2 = Except.error PyError.zeroDivisionError ∧
    (c8Bad.calls + 1) % 5 = 0 ∧ c8Bad.timers ≠ [] ∧
    ¬ ∃ line, (c8Bad.log 5 "").2 = Except.ok [Event.output line] := by
  have he : (c8Bad.log 5 "").2 = Except.error PyError.zeroDivisionError := rfl
  refine ⟨he, by decide, by decide, ?_⟩
  rintro ⟨line, hl⟩
  rw [he] at hl
  exact Except.noConfusion hl

/-- C8, amended: EVERY log(period, prefixText) call — silent, emitting, or
raising — increments the global callCount by exactly one and changes
nothing else in the registry; off a period boundary, or with no timer
registered, it emits nothing; at a period boundary with at least one timer
it emits exactly one output line — joining, for every registered timer in
insertion order, the spec's field (moving average when windowSize > 0,
else cumulative average, ms-scaled below 0.01 s, three decimals) with the
"|" delimiter — provided the averages are computable (windowSize > 0, or
every timer has a completed call); when instead windowSize is 0 (or
negative) and some registered timer has zero completed calls, that same
boundary call raises ZeroDivisionError and emits nothing. -/
theorem log_spec (d : DebugTimer) (p : Nat) (pfx : String) :
    (d.log p pfx).1 = { d with calls := d.calls + 1 } ∧
    (¬ ((d.calls + 1) % p = 0 ∧ d.timers ≠ []) → (d.log p pfx).2 = Except.ok []) ∧
    ((d.calls + 1) % p = 0 ∧ d.timers ≠ [] →
      (0 < d.window_size ∨ ∀ nt ∈ d.timers, nt.2.calls ≠ 0) →
      (d.log p pfx).2 = Except.ok [Event.output (String.intercalate "|"
        ((if pfx = "" then clsPfx else pfx) :: (d.timers.map (specEntry d.window_size) ++ [""])))]) ∧
    ((d.calls + 1) % p = 0 ∧ d.timers ≠ [] → d.window_size ≤ 0 →
      (∃ nt ∈ d.timers, nt.2.calls = 0) →
      (d.log p pfx).2 = Except.error PyError.zeroDivisionError) := by
  refine ⟨log_fst d p pfx, ?_, ?_, ?_⟩
  · intro hn
    unfold DebugTimer.log
    cases hE : logEntries d.window_size d.timers <;> simp [hE, hn]
  · intro hc h
    unfold DebugTimer.log
    simp only [logEntries_ok d.window_size d.timers h]
    rw [if_pos hc]
  · intro hc hws hz
    unfold DebugTimer.log
    simp only [logEntries_error d.window_size d.timers hws hz]
    rw [if_pos hc]

/-- Witness for the amended C8: on c8Bad the boundary call raises
ZeroDivisionError yet still increments the counter to 5; on c8Good an
off-boundary call (period 7) emits nothing, and the boundary call at
period 10 increments the counter to 10 and emits the single line
rendering the 0.005-second average as 5.000ms and the 0.5-second average
as 0.500s. -/
theorem log_spec_witness :
    (c8Bad.log 5 "").1 = { c8Bad with calls := 5 } ∧
    (c8Bad.log 5 "").2 = Except.error PyError.zeroDivisionError ∧
    (c8Good.log 7 "x").2 = Except.ok [] ∧
    (c8Good.log 10 "0:").1 = { c8Good with calls := 10 } ∧
    (c8Good.log 10 "0:").2 = Except.ok [Event.output "0:| t1: 5.000ms | t2: 0.500s |"] := by
  have hb := log_spec c8Bad 5 ""
  have hs := log_spec c8Good 7 "x"
  have h := log_spec c8Good 10 "0:"
  refine ⟨by rw [hb.1]; rfl, ?_, hs.2.1 (by decide), by rw [h.1]; rfl, ?_⟩
  · exact hb.2.2.2 ⟨by decide, by decide⟩ (by decide)
      ⟨("io", (Timer.init 20).tic 0), by simp [c8Bad], rfl⟩
  · rw [h.2.2.1 ⟨by decide, by decide⟩ (Or.inl (by decide))]
    have e1 : specEntry (50 : Int) ("t1", wt1) = " t1: 5.000ms " := by
      norm_num [specEntry, Timer.avg, wt1, fmtFixed3, roundHalfEven, pad3]
      decide
    have e2 : specEntry (50 : Int) ("t2", wt2) = " t2: 0.500s " := by
      norm_num [specEntry, Timer.avg, wt2, fmtFixed3, roundHalfEven, pad3]
      decide
    simp only [c8Good, List.map, e1, e2]
    rfl

/-- C9, counterexample: on the warmup registry c9Warm, a scoped use of "a"
around a raising body pops the name and propagates the error, but the
stopwatch records NO completed interval (callCount stays 0, buffer and
total untouched), contradicting the claim that every scoped use around a
raising body records one completed interval. -/
theorem scope_warmup_counterexample :
    c9Warm.withScope "a" 0 1 (some 7) =
      ({ c9Warm with timers := [("a", Timer.mk 50 [] 0 0 0)] }, some (Sum.inr 7), [Event.sync SyncFunc.noop]) ∧
    (lookupTimer (c9Warm.withScope "a" 0 1 (some 7)).1.timers "a").map Timer.calls = some 0 := ⟨rfl, rfl⟩

/-- C9, amended: for every scoped use of a name around a raising body, the
name is popped (the context stack returns to its prior value) and the
body's error is propagated to the caller unchanged, never swallowed; the
stopwatch records one completed interval (callCount one higher than
before) provided the registry's global callCount has reached numWarmup —
during warmup the closing toc discards the measurement. -/
theorem withScope_spec (d : DebugTimer) (name : String) (t0 t1 : ℚ) (e : Nat) :
    ((d.withScope name t0 t1 (some e)).1.context_stacks = d.context_stacks) ∧
    ((d.withScope name t0 t1 (some e)).2.1 = some (Sum.inr e)) ∧
    (d.num_warmup ≤ d.calls →
      (lookupTimer (d.withScope name t0 t1 (some e)).1.timers name).map Timer.calls =
        some (((lookupTimer d.timers name).map Timer.calls).getD 0 + 1)) := by
  have hEnter : d.scopeEnter name t0 =
      ({ d with
          context_stacks := d.context_stacks ++ [name],
          timers := storeTimer d.timers name
            (((lookupTimer d.timers name).getD (Timer.init d.newTimerCapacity)).tic t0) },
       [Event.sync d.sync]) := by
    unfold DebugTimer.scopeEnter DebugTimer.tic
    simp [getLastD_push, DebugTimer.newTimerCapacity]
  unfold DebugTimer.withScope
  rw [hEnter]
  unfold DebugTimer.scopeExit DebugTimer.toc
  simp only [getLast?_push, dropLast_push, lookupTimer_storeTimer_self]
  by_cases hw : d.num_warmup ≤ d.calls
  · rw [if_pos hw]
    refine ⟨rfl, rfl, fun _ => ?_⟩
    simp only [lookupTimer_storeTimer_self, Option.map_some]
    cases hl : lookupTimer d.timers name with
    | none => simp [hl, Timer.toc, Timer.tic, Timer.init]
    | some t => simp [hl, Timer.toc, Timer.tic]
  · rw [if_neg hw]
    exact ⟨rfl, rfl, fun hcc => absurd hcc hw⟩

/-- Witness for the amended C9 on the past-warmup registry scReg: the
scoped use around a body raising exception 7 restores the stack,
propagates exception 7, and leaves the stopwatch with one completed
call. -/
theorem withScope_spec_witness :
    scReg.num_warmup ≤ scReg.calls ∧
    (scReg.withScope "a" 0 1 (some 7)).1.context_stacks = scReg.context_stacks ∧
    (scReg.withScope "a" 0 1 (some 7)).2.1 = some (Sum.inr 7) ∧
    (lookupTimer (scReg.withScope "a" 0 1 (some 7)).1.timers "a").map Timer.calls = some 1 := by
  have h := withScope_spec scReg "a" 0 1 7
  refine ⟨by decide, h.1, h.2.1, ?_⟩
  have h3 := h.2.2 (by decide)
  simpa [lookupTimer, scReg, DebugTimer.initialWith] using h3

end DebugTimerModel
